import Mathlib

/-
Verification of the carousel slider's slide-index state machine:
navigation with cyclic wrap, auto-play timer lifecycle, hover pause/resume,
and swipe-gesture classification, shallowly embedded from the JavaScript
sources (the base `Carousel` class in carousel/core.js and the
`SwipeCarousel` extension in carousel/swipe.js).
-/

namespace CarouselModel

/-- Error values that JavaScript execution can raise in the modelled code.
`typeError` models the TypeError raised by a property access on `undefined`
(an out-of-bounds element lookup such as `this.slides[i].classList`);
`invalidStateError` is the error kind the specification names, which the
code never constructs. -/
inductive JsError where
  | typeError
  | invalidStateError
deriving DecidableEq, Repr

/-- State of one `Carousel` instance: the private fields the navigation,
timer, and hover logic reads and writes (`#SLIDES_COUNT`, `#currentSlide`,
`#timerId`) together with the public fields `isPlaying` and `pauseOnHover`.
DOM-only fields (buttons, icons, container) are out of scope; the indicator
container is modelled as having exactly `SLIDES_COUNT` children, as
`#createIndicators` builds it. -/
structure CarState where
  SLIDES_COUNT : Nat
  currentSlide : Int
  isPlaying : Bool
  timerId : Option Nat
  pauseOnHover : Bool
deriving DecidableEq, Repr

/-- Host timer environment: the ids of interval timers currently scheduled
by `setInterval` and not yet cancelled by `clearInterval`, plus a counter
providing fresh positive ids (browsers return positive integers, so the
`if (this.#timerId)` truthiness test in `pause` and `#startTimer` is
equivalent to a null check). -/
structure TimerEnv where
  active : List Nat
  fresh : Nat
deriving DecidableEq, Repr

/-- Model of `setInterval`: schedule a new repeating timer, returning its id. -/
def setInterval (env : TimerEnv) : Nat × TimerEnv :=
  (env.fresh, { active := env.fresh :: env.active, fresh := env.fresh + 1 })

/-- Model of `clearInterval`: cancel the timer with the given id. -/
def clearInterval (env : TimerEnv) (t : Nat) : TimerEnv :=
  { env with active := env.active.erase t }

/-- Combined state of one carousel instance and the host timer environment. -/
structure Sys where
  car : CarState
  env : TimerEnv
deriving DecidableEq, Repr

/-- Whether `i` is a valid index into the slide list (and into the indicator
container's children, which has the same length). JavaScript `arr[i]` yields
`undefined` outside this range, and the subsequent `.classList` access on
`undefined` throws a TypeError. -/
def validIndex (count : Nat) (i : Int) : Bool :=
  decide (0 ≤ i) && decide (i < (count : Int))

/-- Model of `Carousel.#gotoNth(n)`. The source first removes the `active`
class from `slides[#currentSlide]` and the matching indicator (a TypeError
when that index is out of bounds, in particular whenever
`#SLIDES_COUNT == 0`), then assigns
`#currentSlide = (n + #SLIDES_COUNT) % #SLIDES_COUNT` — JavaScript `%` is
the truncating remainder, `Int.tmod` — and finally adds the class on the new
`slides[#currentSlide]` (a TypeError when the new index is out of bounds,
raised after the assignment already happened). Returns the post-call state
together with the raised error, if any. -/
def gotoNth (st : CarState) (n : Int) : CarState × Option JsError :=
  if validIndex st.SLIDES_COUNT st.currentSlide then
    let newIdx := Int.tmod (n + (st.SLIDES_COUNT : Int)) (st.SLIDES_COUNT : Int)
    if validIndex st.SLIDES_COUNT newIdx then
      ({ st with currentSlide := newIdx }, none)
    else
      ({ st with currentSlide := newIdx }, some JsError.typeError)
  else
    (st, some JsError.typeError)

/-- Model of `Carousel.pause()`: cancel the timer if one is scheduled, null
the handle, and clear `isPlaying`. -/
def pause (s : Sys) : Sys :=
  let s1 : Sys :=
    match s.car.timerId with
    | some t => { car := { s.car with timerId := none }, env := clearInterval s.env t }
    | none => s
  { s1 with car := { s1.car with isPlaying := false } }

/-- Model of `Carousel.#startTimer()`: cancel a previously scheduled timer
if present, then schedule a fresh interval timer whose callback runs
`#gotoNth(#currentSlide + 1)`. -/
def startTimer (s : Sys) : Sys :=
  let env1 :=
    match s.car.timerId with
    | some t => clearInterval s.env t
    | none => s.env
  let p := setInterval env1
  { car := { s.car with timerId := some p.1 }, env := p.2 }

/-- Model of `Carousel.play()`: start the timer, then set `isPlaying`. -/
def play (s : Sys) : Sys :=
  let s1 := startTimer s
  { s1 with car := { s1.car with isPlaying := true } }

/-- Model of `Carousel.next()`: `pause()` first, then
`#gotoNth(#currentSlide + 1)`. -/
def next (s : Sys) : Sys × Option JsError :=
  let s1 := pause s
  let r := gotoNth s1.car (s1.car.currentSlide + 1)
  ({ s1 with car := r.1 }, r.2)

/-- Model of `Carousel.prev()`: `pause()` first, then
`#gotoNth(#currentSlide - 1)`. -/
def prev (s : Sys) : Sys × Option JsError :=
  let s1 := pause s
  let r := gotoNth s1.car (s1.car.currentSlide - 1)
  ({ s1 with car := r.1 }, r.2)

/-- Model of one auto-play timer tick: the `setInterval` callback installed
by `#startTimer` runs `#gotoNth(#currentSlide + 1)` (the timer itself stays
scheduled; an exception in the callback propagates to the host loop without
cancelling the interval). -/
def tick (s : Sys) : Sys × Option JsError :=
  let r := gotoNth s.car (s.car.currentSlide + 1)
  ({ s with car := r.1 }, r.2)

/-- Model of `Carousel.#indicatorClick` on an indicator element whose
`data-slide-to` value converts to the integer `k`: `pause()` then
`#gotoNth(k)`. -/
def indicatorClick (s : Sys) (k : Int) : Sys × Option JsError :=
  let s1 := pause s
  let r := gotoNth s1.car k
  ({ s1 with car := r.1 }, r.2)

/-- Model of `Carousel.#mouseenterHandler`: pause when `pauseOnHover` is set
and the carousel is playing. -/
def mouseenter (s : Sys) : Sys :=
  if s.car.pauseOnHover && s.car.isPlaying then pause s else s

/-- Model of `Carousel.#mouseleaveHandler`: resume play when `pauseOnHover`
is set and the carousel is not playing. -/
def mouseleave (s : Sys) : Sys :=
  if s.car.pauseOnHover && !s.car.isPlaying then play s else s

/-- Model of `Carousel.pausePlay()`: toggle between the two states (the icon
opacity updates are DOM-only). -/
def pausePlay (s : Sys) : Sys :=
  if s.car.isPlaying then pause s else play s

/-- Direction a pointer gesture is classified into, the specification's
`SwipeRecognizer` result. -/
inductive SwipeDir where
  | noSwipe
  | forward
  | backward
deriving DecidableEq, Repr

/-- Decision logic of `SwipeCarousel.#handleSwipe`, with the threshold a
parameter (the class fixes `#swipeThreshold = 100` in its constructor):
`difference = startX - endX`; below the threshold in absolute value the
gesture is ignored, a positive difference navigates forward, otherwise
backward. The specification names this pure function `classify`. -/
def classify (startX endX thresholdPx : Int) : SwipeDir :=
  let difference := startX - endX
  if |difference| < thresholdPx then SwipeDir.noSwipe
  else if difference > 0 then SwipeDir.forward
  else SwipeDir.backward

/-- The threshold `SwipeCarousel`'s constructor assigns to `#swipeThreshold`
(pixels). -/
def swipeThreshold : Int := 100

/-- Model of a completed press-release gesture on a `SwipeCarousel`:
`#mouseDownHandler` (or `#touchStartHandler`) records `startX`,
`#mouseUpHandler` (or `#touchEndHandler`) records `endX` and calls
`#handleSwipe`, which returns without any action when the displacement is
below `#swipeThreshold` and otherwise calls `next()` or `prev()`. -/
def handleSwipe (s : Sys) (startX endX : Int) : Sys × Option JsError :=
  match classify startX endX swipeThreshold with
  | SwipeDir.noSwipe => (s, none)
  | SwipeDir.forward => next s
  | SwipeDir.backward => prev s

/-- Constructor options consumed by the state machine (selectors and the
interval length do not affect the modelled state beyond wiring). -/
structure Options where
  slideCount : Nat
  isPlaying : Bool
  pauseOnHover : Bool
deriving DecidableEq, Repr

/-- The `DEFAULT_SETTINGS` values relevant to the state machine:
`isPlaying: true`, `pauseOnHover: true`. -/
def defaultOptions (slideCount : Nat) : Options :=
  { slideCount := slideCount, isPlaying := true, pauseOnHover := true }

/-- Model of the `Carousel` constructor: `#SLIDES_COUNT` is the length of
the queried slide list, `#currentSlide = 0`, `#timerId = null`, and
`isPlaying` / `pauseOnHover` come from the merged settings. -/
def construct (opts : Options) (env : TimerEnv) : Sys :=
  { car := { SLIDES_COUNT := opts.slideCount
             currentSlide := 0
             isPlaying := opts.isPlaying
             timerId := none
             pauseOnHover := opts.pauseOnHover }
    env := env }

/-- Model of `Carousel.init()`: control and indicator creation and listener
registration are DOM-only; then `#startTimer()` runs iff `isPlaying`. -/
def init (s : Sys) : Sys :=
  if s.car.isPlaying then startTimer s else s

/-- External events the carousel handles after `init`: public method calls,
button and keyboard handlers (arrow keys and buttons reduce to `next`,
`prev`, and `pausePlay`), indicator clicks, hover enter/leave, auto-play
timer ticks, and completed swipe gestures. -/
inductive Op where
  | play
  | pause
  | next
  | prev
  | pausePlay
  | tick
  | mouseenter
  | mouseleave
  | indicatorClick (k : Int)
  | swipe (startX endX : Int)
deriving DecidableEq, Repr

/-- One event step: the state after the handler runs. A raised error
propagates to the host loop, but the mutations made before the raise have
already taken effect, so the state component of the fallible operations is
kept. -/
def step (s : Sys) : Op → Sys
  | Op.play => play s
  | Op.pause => pause s
  | Op.next => (next s).1
  | Op.prev => (prev s).1
  | Op.pausePlay => pausePlay s
  | Op.tick => (tick s).1
  | Op.mouseenter => mouseenter s
  | Op.mouseleave => mouseleave s
  | Op.indicatorClick k => (indicatorClick s k).1
  | Op.swipe a b => (handleSwipe s a b).1

/-- Run a sequence of events in delivery order. -/
def runOps (s : Sys) : List Op → Sys
  | [] => s
  | op :: ops => runOps (step s op) ops

/-- Timer-handle invariant: the host's scheduled timers are exactly the one
handle the carousel stores in `#timerId`, and every scheduled id is below
the freshness counter. -/
def TimerInv (s : Sys) : Prop :=
  s.env.active = s.car.timerId.toList ∧ ∀ t ∈ s.env.active, t < s.env.fresh

/-- Playing-state invariant asserted by the specification: `isPlaying` holds
iff a timer handle is currently stored. -/
def PlayInv (s : Sys) : Prop :=
  s.car.isPlaying = s.car.timerId.isSome

/-- Specification-side definition of the swipe recognizer, written exactly as
the spec states it (diff below the threshold in absolute value gives no
gesture, a positive diff maps forward, anything else backward), kept separate
from the source-derived `classify` so the two can be compared. -/
def specClassify (startX endX thresholdPx : Int) : SwipeDir :=
  if |startX - endX| < thresholdPx then SwipeDir.noSwipe
  else if startX - endX > 0 then SwipeDir.forward
  else SwipeDir.backward

/-- Running example: a paused three-slide carousel at slide 0 with no timer
scheduled. -/
def stThree : CarState :=
  { SLIDES_COUNT := 3, currentSlide := 0, isPlaying := false,
    timerId := none, pauseOnHover := true }

/-- Running example: a playing three-slide carousel at slide 0 whose timer
(id 1) is scheduled in the host environment. -/
def sPlaying : Sys :=
  { car := { SLIDES_COUNT := 3, currentSlide := 0, isPlaying := true,
             timerId := some 1, pauseOnHover := true }
    env := { active := [1], fresh := 2 } }

/-- Running example: a playing carousel over an empty slide set, with its
timer (id 1) scheduled. -/
def sEmpty : Sys :=
  { car := { SLIDES_COUNT := 0, currentSlide := 0, isPlaying := true,
             timerId := some 1, pauseOnHover := true }
    env := { active := [1], fresh := 2 } }

/-- Running example: a paused five-slide carousel at slide 3. -/
def sFive : Sys :=
  { car := { SLIDES_COUNT := 5, currentSlide := 3, isPlaying := false,
             timerId := none, pauseOnHover := true }
    env := { active := [], fresh := 1 } }

/-- Running example: a paused five-slide carousel at slide 0. -/
def sFiveAtZero : Sys :=
  { car := { SLIDES_COUNT := 5, currentSlide := 0, isPlaying := false,
             timerId := none, pauseOnHover := true }
    env := { active := [], fresh := 1 } }

/-- Running example: a playing two-slide carousel with pause-on-hover
enabled and its timer (id 4) scheduled. -/
def sTwo : Sys :=
  { car := { SLIDES_COUNT := 2, currentSlide := 1, isPlaying := true,
             timerId := some 4, pauseOnHover := true }
    env := { active := [4], fresh := 5 } }

end CarouselModel

namespace CarouselModel

lemma validIndex_iff (count : Nat) (i : Int) :
    validIndex count i = true ↔ 0 ≤ i ∧ i < (count : Int) := by
  simp [validIndex]

lemma wrap_eq_emod (c : Nat) (n : Int) (hc : 0 < (c : Int)) (hn : 0 ≤ n + (c : Int)) :
    Int.tmod (n + (c : Int)) (c : Int) = n % (c : Int) := by
  rw [Int.tmod_eq_emod hn (le_of_lt hc), Int.add_emod_self]

lemma emod_validIndex (c : Nat) (n : Int) (hc : 0 < (c : Int)) :
    validIndex c (n % (c : Int)) = true := by
  rw [validIndex_iff]
  exact ⟨Int.emod_nonneg n (ne_of_gt hc), Int.emod_lt_of_pos n hc⟩

lemma count_pos_of_validIndex {c : Nat} {i : Int} (h : validIndex c i = true) :
    0 < (c : Int) := by
  rcases (validIndex_iff c i).mp h with ⟨h1, h2⟩
  exact lt_of_le_of_lt h1 h2

lemma gotoNth_eq (st : CarState) (n : Int)
    (hv : validIndex st.SLIDES_COUNT st.currentSlide = true)
    (hn : 0 ≤ n + (st.SLIDES_COUNT : Int)) :
    gotoNth st n = ({ st with currentSlide := n % (st.SLIDES_COUNT : Int) }, none) := by
  have hc : 0 < (st.SLIDES_COUNT : Int) := count_pos_of_validIndex hv
  have hmod : Int.tmod (n + (st.SLIDES_COUNT : Int)) (st.SLIDES_COUNT : Int)
      = n % (st.SLIDES_COUNT : Int) := wrap_eq_emod _ _ hc hn
  have hv2 : validIndex st.SLIDES_COUNT (n % (st.SLIDES_COUNT : Int)) = true :=
    emod_validIndex _ _ hc
  simp only [gotoNth, hv, if_true, hmod, hv2]

lemma gotoNth_fields (st : CarState) (n : Int) :
    (gotoNth st n).1.timerId = st.timerId
    ∧ (gotoNth st n).1.isPlaying = st.isPlaying
    ∧ (gotoNth st n).1.SLIDES_COUNT = st.SLIDES_COUNT
    ∧ (gotoNth st n).1.pauseOnHover = st.pauseOnHover := by
  unfold gotoNth
  split
  · cases hb : validIndex st.SLIDES_COUNT
        (Int.tmod (n + (st.SLIDES_COUNT : Int)) (st.SLIDES_COUNT : Int)) <;>
      simp [hb]
  · simp

lemma pause_car (s : Sys) :
    (pause s).car.isPlaying = false
    ∧ (pause s).car.timerId = none
    ∧ (pause s).car.currentSlide = s.car.currentSlide
    ∧ (pause s).car.SLIDES_COUNT = s.car.SLIDES_COUNT
    ∧ (pause s).car.pauseOnHover = s.car.pauseOnHover := by
  unfold pause
  cases hT : s.car.timerId <;> simp [hT]

lemma pause_env (s : Sys) (h : TimerInv s) : (pause s).env.active = [] := by
  unfold pause
  cases hT : s.car.timerId with
  | none =>
    simp only [hT]
    rw [h.1, hT]
    rfl
  | some t =>
    simp only [hT, clearInterval]
    rw [h.1, hT]
    simp [Option.toList]

lemma timerInv_pause (s : Sys) (h : TimerInv s) : TimerInv (pause s) := by
  constructor
  · rw [pause_env s h, (pause_car s).2.1]
    rfl
  · rw [pause_env s h]
    intro t ht
    cases ht

lemma startTimer_env (s : Sys) (h : TimerInv s) :
    (startTimer s).env.active = [s.env.fresh]
    ∧ (startTimer s).env.fresh = s.env.fresh + 1
    ∧ (startTimer s).car.timerId = some s.env.fresh := by
  unfold startTimer setInterval clearInterval
  cases hT : s.car.timerId with
  | none =>
    have : s.env.active = [] := by rw [h.1, hT]; rfl
    simp [hT, this]
  | some t =>
    have : s.env.active = [t] := by rw [h.1, hT]; rfl
    simp [hT, this]

lemma timerInv_startTimer (s : Sys) (h : TimerInv s) : TimerInv (startTimer s) := by
  obtain ⟨h1, h2, h3⟩ := startTimer_env s h
  constructor
  · rw [h1, h3]
    rfl
  · rw [h1, h2]
    intro t ht
    simp at ht
    omega

lemma timerInv_play (s : Sys) (h : TimerInv s) : TimerInv (play s) := by
  have := timerInv_startTimer s h
  unfold play
  exact this

end CarouselModel

namespace CarouselModel

lemma play_car (s : Sys) :
    (play s).car.isPlaying = true
    ∧ (play s).car.timerId.isSome = true
    ∧ (play s).car.currentSlide = s.car.currentSlide
    ∧ (play s).car.SLIDES_COUNT = s.car.SLIDES_COUNT
    ∧ (play s).car.pauseOnHover = s.car.pauseOnHover := by
  unfold play startTimer setInterval
  cases hT : s.car.timerId <;> simp [hT]

lemma timerInv_gotoNth_wrap (s : Sys) (n : Int) (h : TimerInv s) :
    TimerInv { s with car := (gotoNth s.car n).1 } := by
  obtain ⟨hT, _, _, _⟩ := gotoNth_fields s.car n
  constructor
  · show s.env.active = (gotoNth s.car n).1.timerId.toList
    rw [hT]
    exact h.1
  · exact h.2

lemma timerInv_step (s : Sys) (op : Op) (h : TimerInv s) : TimerInv (step s op) := by
  cases op with
  | play => exact timerInv_play s h
  | pause => exact timerInv_pause s h
  | next => exact timerInv_gotoNth_wrap (pause s) _ (timerInv_pause s h)
  | prev => exact timerInv_gotoNth_wrap (pause s) _ (timerInv_pause s h)
  | pausePlay =>
    simp only [step, pausePlay]
    split
    · exact timerInv_pause s h
    · exact timerInv_play s h
  | tick => exact timerInv_gotoNth_wrap s _ h
  | mouseenter =>
    simp only [step, mouseenter]
    split
    · exact timerInv_pause s h
    · exact h
  | mouseleave =>
    simp only [step, mouseleave]
    split
    · exact timerInv_play s h
    · exact h
  | indicatorClick k => exact timerInv_gotoNth_wrap (pause s) _ (timerInv_pause s h)
  | swipe a b =>
    simp only [step, handleSwipe]
    split
    · exact h
    · exact timerInv_gotoNth_wrap (pause s) _ (timerInv_pause s h)
    · exact timerInv_gotoNth_wrap (pause s) _ (timerInv_pause s h)

lemma timerInv_runOps (ops : List Op) (s : Sys) (h : TimerInv s) :
    TimerInv (runOps s ops) := by
  induction ops generalizing s with
  | nil => exact h
  | cons op ops ih => exact ih _ (timerInv_step s op h)

lemma timerInv_init (s : Sys) (h : TimerInv s) : TimerInv (init s) := by
  unfold init
  split
  · exact timerInv_startTimer s h
  · exact h

lemma timerInv_construct (opts : Options) :
    TimerInv (construct opts { active := [], fresh := 1 }) := by
  constructor
  · rfl
  · intro t ht
    cases ht

lemma active_length_le_one (s : Sys) (h : TimerInv s) :
    s.env.active.length ≤ 1 := by
  rw [h.1]
  cases s.car.timerId <;> simp [Option.toList]

lemma runOps_append (s : Sys) (l1 l2 : List Op) :
    runOps s (l1 ++ l2) = runOps (runOps s l1) l2 := by
  induction l1 generalizing s with
  | nil => rfl
  | cons op l1 ih => simp [runOps, ih]

lemma playInv_pause (s : Sys) : PlayInv (pause s) := by
  show (pause s).car.isPlaying = (pause s).car.timerId.isSome
  rw [(pause_car s).1, (pause_car s).2.1]
  rfl

lemma playInv_play (s : Sys) : PlayInv (play s) := by
  show (play s).car.isPlaying = (play s).car.timerId.isSome
  rw [(play_car s).1, (play_car s).2.1]

lemma playInv_gotoNth_wrap (s : Sys) (n : Int) (h : PlayInv s) :
    PlayInv { s with car := (gotoNth s.car n).1 } := by
  obtain ⟨hT, hP, _, _⟩ := gotoNth_fields s.car n
  show (gotoNth s.car n).1.isPlaying = (gotoNth s.car n).1.timerId.isSome
  rw [hT, hP]
  exact h

lemma playInv_step (s : Sys) (op : Op) (h : PlayInv s) : PlayInv (step s op) := by
  cases op with
  | play => exact playInv_play s
  | pause => exact playInv_pause s
  | next => exact playInv_gotoNth_wrap (pause s) _ (playInv_pause s)
  | prev => exact playInv_gotoNth_wrap (pause s) _ (playInv_pause s)
  | pausePlay =>
    simp only [step, pausePlay]
    split
    · exact playInv_pause s
    · exact playInv_play s
  | tick => exact playInv_gotoNth_wrap s _ h
  | mouseenter =>
    simp only [step, mouseenter]
    split
    · exact playInv_pause s
    · exact h
  | mouseleave =>
    simp only [step, mouseleave]
    split
    · exact playInv_play s
    · exact h
  | indicatorClick k => exact playInv_gotoNth_wrap (pause s) _ (playInv_pause s)
  | swipe a b =>
    simp only [step, handleSwipe]
    split
    · exact h
    · exact playInv_gotoNth_wrap (pause s) _ (playInv_pause s)
    · exact playInv_gotoNth_wrap (pause s) _ (playInv_pause s)

lemma playInv_runOps (ops : List Op) (s : Sys) (h : PlayInv s) :
    PlayInv (runOps s ops) := by
  induction ops generalizing s with
  | nil => exact h
  | cons op ops ih => exact ih _ (playInv_step s op h)

lemma playInv_init_construct (opts : Options) (env : TimerEnv) :
    PlayInv (init (construct opts env)) := by
  unfold PlayInv init construct startTimer setInterval
  cases hP : opts.isPlaying <;> simp [hP]

end CarouselModel

namespace CarouselModel

lemma pause_validIndex (s : Sys)
    (hv : validIndex s.car.SLIDES_COUNT s.car.currentSlide = true) :
    validIndex (pause s).car.SLIDES_COUNT (pause s).car.currentSlide = true := by
  rw [(pause_car s).2.2.2.1, (pause_car s).2.2.1]
  exact hv

lemma gotoNth_err_of_empty (st : CarState) (h : st.SLIDES_COUNT = 0) (n : Int) :
    gotoNth st n = (st, some JsError.typeError) := by
  have hvi : validIndex st.SLIDES_COUNT st.currentSlide = false := by
    rw [h]
    simp [validIndex]
  unfold gotoNth
  simp [hvi]

lemma indicatorClick_eq (s : Sys) (k : Int)
    (hv : validIndex s.car.SLIDES_COUNT s.car.currentSlide = true)
    (hk : 0 ≤ k + (s.car.SLIDES_COUNT : Int)) :
    (indicatorClick s k).1.car.currentSlide = k % (s.car.SLIDES_COUNT : Int)
    ∧ (indicatorClick s k).2 = none := by
  have hv2 := pause_validIndex s hv
  have hk2 : 0 ≤ k + ((pause s).car.SLIDES_COUNT : Int) := by
    rw [(pause_car s).2.2.2.1]
    exact hk
  have he := gotoNth_eq (pause s).car k hv2 hk2
  constructor
  · show (gotoNth (pause s).car k).1.currentSlide = k % (s.car.SLIDES_COUNT : Int)
    rw [he]
    show k % ((pause s).car.SLIDES_COUNT : Int) = k % (s.car.SLIDES_COUNT : Int)
    rw [(pause_car s).2.2.2.1]
  · show (gotoNth (pause s).car k).2 = none
    rw [he]

lemma next_car (s : Sys)
    (hv : validIndex s.car.SLIDES_COUNT s.car.currentSlide = true) :
    (next s).1.car.isPlaying = false
    ∧ (next s).1.car.timerId = none
    ∧ (next s).1.car.currentSlide
        = (s.car.currentSlide + 1) % (s.car.SLIDES_COUNT : Int)
    ∧ (next s).2 = none := by
  have hps := pause_car s
  have hv2 := pause_validIndex s hv
  have hn : 0 ≤ ((pause s).car.currentSlide + 1) + ((pause s).car.SLIDES_COUNT : Int) := by
    rcases (validIndex_iff _ _).mp hv2 with ⟨h1, h2⟩
    omega
  have he := gotoNth_eq (pause s).car ((pause s).car.currentSlide + 1) hv2 hn
  refine ⟨?_, ?_, ?_, ?_⟩
  · show (gotoNth (pause s).car ((pause s).car.currentSlide + 1)).1.isPlaying = false
    rw [he]
    exact hps.1
  · show (gotoNth (pause s).car ((pause s).car.currentSlide + 1)).1.timerId = none
    rw [he]
    exact hps.2.1
  · show (gotoNth (pause s).car ((pause s).car.currentSlide + 1)).1.currentSlide = _
    rw [he]
    show ((pause s).car.currentSlide + 1) % ((pause s).car.SLIDES_COUNT : Int)
        = (s.car.currentSlide + 1) % (s.car.SLIDES_COUNT : Int)
    rw [hps.2.2.1, hps.2.2.2.1]
  · show (gotoNth (pause s).car ((pause s).car.currentSlide + 1)).2 = none
    rw [he]

lemma prev_car (s : Sys)
    (hv : validIndex s.car.SLIDES_COUNT s.car.currentSlide = true) :
    (prev s).1.car.isPlaying = false
    ∧ (prev s).1.car.timerId = none
    ∧ (prev s).1.car.currentSlide
        = (s.car.currentSlide - 1) % (s.car.SLIDES_COUNT : Int)
    ∧ (prev s).2 = none := by
  have hps := pause_car s
  have hv2 := pause_validIndex s hv
  have hn : 0 ≤ ((pause s).car.currentSlide - 1) + ((pause s).car.SLIDES_COUNT : Int) := by
    rcases (validIndex_iff _ _).mp hv2 with ⟨h1, h2⟩
    omega
  have he := gotoNth_eq (pause s).car ((pause s).car.currentSlide - 1) hv2 hn
  refine ⟨?_, ?_, ?_, ?_⟩
  · show (gotoNth (pause s).car ((pause s).car.currentSlide - 1)).1.isPlaying = false
    rw [he]
    exact hps.1
  · show (gotoNth (pause s).car ((pause s).car.currentSlide - 1)).1.timerId = none
    rw [he]
    exact hps.2.1
  · show (gotoNth (pause s).car ((pause s).car.currentSlide - 1)).1.currentSlide = _
    rw [he]
    show ((pause s).car.currentSlide - 1) % ((pause s).car.SLIDES_COUNT : Int)
        = (s.car.currentSlide - 1) % (s.car.SLIDES_COUNT : Int)
    rw [hps.2.2.1, hps.2.2.2.1]
  · show (gotoNth (pause s).car ((pause s).car.currentSlide - 1)).2 = none
    rw [he]

lemma play_active_singleton (s : Sys) (h : TimerInv s) :
    (play s).env.active = [s.env.fresh] := by
  show (startTimer s).env.active = [s.env.fresh]
  exact (startTimer_env s h).1

end CarouselModel

namespace CarouselModel

/-- C1 (counterexample): with 3 slides, current index 0, and delta `-4`, the
wrap computation `(n + SLIDES_COUNT) % SLIDES_COUNT` of `#gotoNth` leaves the
current index at `-1`, outside `[0, 3)`, while true mathematical modulo of
`-4` by `3` is `2`: the claim's universal wrap invariant fails because the
JavaScript `%` is the truncating remainder, compensated for only one
slide-count's worth of underflow. -/
theorem wrap_truncating_counterexample :
    (gotoNth stThree (0 + -4)).1.currentSlide = -1
    ∧ ((-4 : Int) % 3 = 2)
    ∧ ¬ (0 ≤ (gotoNth stThree (0 + -4)).1.currentSlide) := by
  decide

/-- C1 (amended): for every slide count > 0, in-range current index, and
delta `d` with `currentIndex + d ≥ -slideCount` (which covers every delta
the carousel itself issues: `±1` from next/prev/ticks and in-range indicator
targets), after `#gotoNth(currentIndex + d)` the current index lies in
`[0, slideCount)` and equals the true mathematical modulo
`(currentIndex + d) mod slideCount`, with no error raised; outside that
domain the truncating-remainder wrap can go negative. -/
theorem wrap_in_range (st : CarState) (d : Int)
    (hv : validIndex st.SLIDES_COUNT st.currentSlide = true)
    (hd : 0 ≤ st.currentSlide + d + (st.SLIDES_COUNT : Int)) :
    0 ≤ (gotoNth st (st.currentSlide + d)).1.currentSlide
    ∧ (gotoNth st (st.currentSlide + d)).1.currentSlide < (st.SLIDES_COUNT : Int)
    ∧ (gotoNth st (st.currentSlide + d)).1.currentSlide
        = (st.currentSlide + d) % (st.SLIDES_COUNT : Int)
    ∧ (gotoNth st (st.currentSlide + d)).2 = none := by
  have hc := count_pos_of_validIndex hv
  have he := gotoNth_eq st (st.currentSlide + d) hv hd
  rw [he]
  exact ⟨Int.emod_nonneg _ (ne_of_gt hc), Int.emod_lt_of_pos _ hc, rfl, rfl⟩

/-- C1 (witness): the amended wrap invariant applied to the spec's own
example, 3 slides at index 0 with delta `-1`, landing on index 2. -/
theorem wrap_in_range_witness :
    0 ≤ (gotoNth stThree (stThree.currentSlide + -1)).1.currentSlide
    ∧ (gotoNth stThree (stThree.currentSlide + -1)).1.currentSlide
        < (stThree.SLIDES_COUNT : Int)
    ∧ (gotoNth stThree (stThree.currentSlide + -1)).1.currentSlide
        = (stThree.currentSlide + -1) % (stThree.SLIDES_COUNT : Int)
    ∧ (gotoNth stThree (stThree.currentSlide + -1)).2 = none :=
  wrap_in_range stThree (-1) (by decide) (by decide)

end CarouselModel

namespace CarouselModel

/-- C2 (counterexample): starting PLAYING with pause-on-hover enabled, a
manual `pause()` followed by hover-enter then hover-leave leaves the
carousel PLAYING, not PAUSED: `#mouseleaveHandler` resumes whenever
`!isPlaying`, with no memory of whether the pause was hover-induced. -/
theorem manual_pause_clobbered_counterexample :
    (runOps sPlaying [Op.pause]).car.isPlaying = false
    ∧ (runOps sPlaying [Op.pause, Op.mouseenter, Op.mouseleave]).car.isPlaying = true := by
  decide

/-- C2 (amended): whenever `pauseOnHover` is enabled, a manual `pause()`
followed by hover-enter then hover-leave always ends with the carousel
PLAYING: hover-leave resumes play whenever the carousel is paused,
regardless of whether the pause was hover-induced or manual. -/
theorem hover_leave_resumes_manual_pause (s : Sys)
    (h : s.car.pauseOnHover = true) :
    (runOps s [Op.pause, Op.mouseenter, Op.mouseleave]).car.isPlaying = true := by
  show (mouseleave (mouseenter (pause s))).car.isPlaying = true
  have h1 : (pause s).car.isPlaying = false := (pause_car s).1
  have h2 : mouseenter (pause s) = pause s := by
    unfold mouseenter
    rw [h1]
    simp
  rw [h2]
  unfold mouseleave
  rw [h1, (pause_car s).2.2.2.2, h]
  simp [(play_car (pause s)).1]

/-- C2 (witness): the amended behavior on the playing two-slide example:
after manual pause, hover-enter, hover-leave, the carousel is playing. -/
theorem hover_leave_resumes_manual_pause_witness :
    (runOps sTwo [Op.pause, Op.mouseenter, Op.mouseleave]).car.isPlaying = true :=
  hover_leave_resumes_manual_pause sTwo rfl

/-- C3: indicator activation goes through the same `#gotoNth` wrap as
advancing: on a five-slide carousel `#gotoNth(7)` via an indicator click
lands on index 2 from any valid starting index, `#gotoNth(2)` from index 0
lands on index 2, and for every integer `k`, going to `k` coincides with
advancing by `k - currentIndex`. -/
theorem indicator_goto_wrap (s s0 : Sys) (k : Int)
    (h5 : s.car.SLIDES_COUNT = 5)
    (hv : validIndex s.car.SLIDES_COUNT s.car.currentSlide = true)
    (h50 : s0.car.SLIDES_COUNT = 5)
    (hv0 : validIndex s0.car.SLIDES_COUNT s0.car.currentSlide = true)
    (hz : s0.car.currentSlide = 0) :
    (indicatorClick s 7).1.car.currentSlide = 2
    ∧ (indicatorClick s0 2).1.car.currentSlide = 2
    ∧ gotoNth s.car k = gotoNth s.car (s.car.currentSlide + (k - s.car.currentSlide)) := by
  have hc : (s.car.SLIDES_COUNT : Int) = 5 := by rw [h5]; rfl
  have hc0 : (s0.car.SLIDES_COUNT : Int) = 5 := by rw [h50]; rfl
  refine ⟨?_, ?_, ?_⟩
  · have h1 := indicatorClick_eq s 7 hv (by omega)
    rw [h1.1, hc]
    decide
  · have h2 := indicatorClick_eq s0 2 hv0 (by omega)
    rw [h2.1, hc0]
    decide
  · have : s.car.currentSlide + (k - s.car.currentSlide) = k := by ring
    rw [this]

/-- C3 (witness): on concrete five-slide carousels, an indicator click for 7
from index 3 lands on 2, and one for 2 from index 0 lands on 2. -/
theorem indicator_goto_wrap_witness :
    (indicatorClick sFive 7).1.car.currentSlide = 2
    ∧ (indicatorClick sFiveAtZero 2).1.car.currentSlide = 2
    ∧ gotoNth sFive.car 7
        = gotoNth sFive.car (sFive.car.currentSlide + (7 - sFive.car.currentSlide)) :=
  indicator_goto_wrap sFive sFiveAtZero 7 rfl (by decide) rfl (by decide) rfl

end CarouselModel

namespace CarouselModel

/-- C4 (counterexample): on an empty slide set, `next()` is neither a no-op
nor an `InvalidStateError`: it raises a TypeError (from the `undefined`
slide-element access in `#gotoNth`) and still mutates state on the way
(the preceding `pause()` already ran). -/
theorem empty_slides_error_kind_counterexample :
    (next sEmpty).2 = some JsError.typeError
    ∧ JsError.typeError ≠ JsError.invalidStateError
    ∧ (next sEmpty).1 ≠ sEmpty := by
  decide

/-- C4 (amended): when the slide count is 0, `next()`, `prev()`, and
auto-play timer ticks all fail synchronously with the same TypeError raised
inside `#gotoNth` at the call site — consistently the same behavior for all
three, but a TypeError rather than the specification's `InvalidStateError`,
and not a no-op. -/
theorem empty_slides_typeError (s : Sys) (h0 : s.car.SLIDES_COUNT = 0) :
    (next s).2 = some JsError.typeError
    ∧ (prev s).2 = some JsError.typeError
    ∧ (tick s).2 = some JsError.typeError := by
  have hp0 : (pause s).car.SLIDES_COUNT = 0 := by
    rw [(pause_car s).2.2.2.1]
    exact h0
  refine ⟨?_, ?_, ?_⟩
  · show (gotoNth (pause s).car ((pause s).car.currentSlide + 1)).2 = some JsError.typeError
    rw [gotoNth_err_of_empty (pause s).car hp0]
  · show (gotoNth (pause s).car ((pause s).car.currentSlide - 1)).2 = some JsError.typeError
    rw [gotoNth_err_of_empty (pause s).car hp0]
  · show (gotoNth s.car (s.car.currentSlide + 1)).2 = some JsError.typeError
    rw [gotoNth_err_of_empty s.car h0]

/-- C4 (witness): the amended consistent-TypeError behavior on the concrete
empty-slide-set example. -/
theorem empty_slides_typeError_witness :
    (next sEmpty).2 = some JsError.typeError
    ∧ (prev sEmpty).2 = some JsError.typeError
    ∧ (tick sEmpty).2 = some JsError.typeError :=
  empty_slides_typeError sEmpty rfl

/-- C5: from any state that is playing (indeed from any state with a valid
index and a consistent timer environment), `next()` and `prev()` first
transition to PAUSED — cancelling any running timer, so afterwards
`isPlaying` is false, the handle is null, and no host timer is active — and
only then advance the index by `+1` respectively `-1` modulo the slide
count, raising no error. -/
theorem next_pauses_then_advances (s : Sys)
    (hp : s.car.isPlaying = true)
    (hv : validIndex s.car.SLIDES_COUNT s.car.currentSlide = true)
    (hinv : TimerInv s) :
    (next s).1.car.isPlaying = false
    ∧ (next s).1.car.timerId = none
    ∧ (next s).1.env.active = []
    ∧ (next s).1.car.currentSlide
        = (s.car.currentSlide + 1) % (s.car.SLIDES_COUNT : Int)
    ∧ (next s).2 = none
    ∧ (prev s).1.car.isPlaying = false
    ∧ (prev s).1.car.timerId = none
    ∧ (prev s).1.env.active = []
    ∧ (prev s).1.car.currentSlide
        = (s.car.currentSlide - 1) % (s.car.SLIDES_COUNT : Int)
    ∧ (prev s).2 = none := by
  have hn := next_car s hv
  have hq := prev_car s hv
  have hea : (pause s).env.active = [] := pause_env s hinv
  exact ⟨hn.1, hn.2.1, hea, hn.2.2.1, hn.2.2.2,
         hq.1, hq.2.1, hea, hq.2.2.1, hq.2.2.2⟩

/-- C5 (witness): on the playing three-slide example at index 0, `next()`
leaves a paused carousel with no active timer at index 1, and `prev()` at
index 2. -/
theorem next_pauses_then_advances_witness :
    (next sPlaying).1.car.isPlaying = false
    ∧ (next sPlaying).1.car.timerId = none
    ∧ (next sPlaying).1.env.active = []
    ∧ (next sPlaying).1.car.currentSlide
        = (sPlaying.car.currentSlide + 1) % (sPlaying.car.SLIDES_COUNT : Int)
    ∧ (next sPlaying).2 = none
    ∧ (prev sPlaying).1.car.isPlaying = false
    ∧ (prev sPlaying).1.car.timerId = none
    ∧ (prev sPlaying).1.env.active = []
    ∧ (prev sPlaying).1.car.currentSlide
        = (sPlaying.car.currentSlide - 1) % (sPlaying.car.SLIDES_COUNT : Int)
    ∧ (prev sPlaying).2 = none :=
  next_pauses_then_advances sPlaying rfl (by decide) ⟨rfl, by decide⟩

/-- C6: starting from a freshly constructed and initialized carousel, after
any sequence of play, pause, hover, navigation, indicator, swipe, and tick
events at most one host timer is active; appending two consecutive `play()`
calls leaves exactly one active timer (the second `play` cancels before
rescheduling); and one timer tick advances the index by exactly one modulo
the slide count, never two. -/
theorem at_most_one_timer (opts : Options) (ops : List Op) (s : Sys)
    (hv : validIndex s.car.SLIDES_COUNT s.car.currentSlide = true) :
    (runOps (init (construct opts { active := [], fresh := 1 })) ops).env.active.length ≤ 1
    ∧ (runOps (init (construct opts { active := [], fresh := 1 }))
        (ops ++ [Op.play, Op.play])).env.active.length = 1
    ∧ (step s Op.tick).car.currentSlide
        = (s.car.currentSlide + 1) % (s.car.SLIDES_COUNT : Int) := by
  have hbase := timerInv_init _ (timerInv_construct opts)
  have h1 := timerInv_runOps ops _ hbase
  refine ⟨active_length_le_one _ h1, ?_, ?_⟩
  · rw [runOps_append]
    show (play (play (runOps (init (construct opts { active := [], fresh := 1 })) ops))).env.active.length = 1
    rw [play_active_singleton _ (timerInv_play _ h1)]
    rfl
  · have hd : 0 ≤ s.car.currentSlide + 1 + (s.car.SLIDES_COUNT : Int) := by
      rcases (validIndex_iff _ _).mp hv with ⟨a, b⟩
      omega
    have he := gotoNth_eq s.car (s.car.currentSlide + 1) hv hd
    show (gotoNth s.car (s.car.currentSlide + 1)).1.currentSlide = _
    rw [he]

/-- C6 (witness): the timer-uniqueness bound, the double-`play()` case, and
the single-step tick advance evaluated on the default three-slide
configuration and the concrete playing example. -/
theorem at_most_one_timer_witness :
    (runOps (init (construct (defaultOptions 3) { active := [], fresh := 1 })) []).env.active.length ≤ 1
    ∧ (runOps (init (construct (defaultOptions 3) { active := [], fresh := 1 }))
        ([] ++ [Op.play, Op.play])).env.active.length = 1
    ∧ (step sPlaying Op.tick).car.currentSlide
        = (sPlaying.car.currentSlide + 1) % (sPlaying.car.SLIDES_COUNT : Int) :=
  at_most_one_timer (defaultOptions 3) [] sPlaying (by decide)

end CarouselModel

namespace CarouselModel

/-- C7: the source's swipe decision logic coincides with the pure
`classify(startX, endX, thresholdPx)` function the specification defines
(below-threshold displacement is a no-op, positive difference forward,
otherwise backward), the boundary cases come out as stated —
`classify(100, 0, 100)` is Forward, `classify(99, 0, 100)` is None,
`classify(0, 150, 100)` is Backward — and `#handleSwipe` dispatches Forward
to `next()`, Backward to `prev()`, and None to nothing. -/
theorem classify_matches_spec (sx ex th : Int) (s : Sys) :
    classify sx ex th = specClassify sx ex th
    ∧ specClassify 100 0 100 = SwipeDir.forward
    ∧ specClassify 99 0 100 = SwipeDir.noSwipe
    ∧ specClassify 0 150 100 = SwipeDir.backward
    ∧ handleSwipe s sx ex
        = (match specClassify sx ex swipeThreshold with
           | SwipeDir.noSwipe => (s, none)
           | SwipeDir.forward => next s
           | SwipeDir.backward => prev s) := by
  have hcs : ∀ a b t : Int, classify a b t = specClassify a b t := by
    intro a b t
    rfl
  refine ⟨hcs sx ex th, by decide, by decide, by decide, ?_⟩
  show (match classify sx ex swipeThreshold with
        | SwipeDir.noSwipe => (s, none)
        | SwipeDir.forward => next s
        | SwipeDir.backward => prev s)
      = (match specClassify sx ex swipeThreshold with
         | SwipeDir.noSwipe => (s, none)
         | SwipeDir.forward => next s
         | SwipeDir.backward => prev s)
  rw [hcs]

/-- C8 (counterexample): `next()` on the playing empty-slide-set example
fails, yet by the time the error propagates the playing flag has flipped to
false and the running timer has been cancelled: the operation is not
atomic-per-call. -/
theorem atomicity_counterexample :
    ((next sEmpty).2).isSome = true
    ∧ sEmpty.car.isPlaying = true
    ∧ (next sEmpty).1.car.isPlaying = false
    ∧ sEmpty.env.active = [1]
    ∧ (next sEmpty).1.env.active = [] := by
  decide

/-- C8 (amended): when `next()` fails on an empty slide set from a playing
state, the failure leaves the current index untouched, but the
playing/timer state has already changed when the error propagates: the
internal `pause()` completed (flag false, handle null) before `#gotoNth`
raised. Operations are therefore not atomic-per-call. -/
theorem next_failure_after_pause (s : Sys)
    (h0 : s.car.SLIDES_COUNT = 0)
    (hp : s.car.isPlaying = true) :
    ((next s).2).isSome = true
    ∧ (next s).1.car.isPlaying = false
    ∧ (next s).1.car.timerId = none
    ∧ (next s).1.car.currentSlide = s.car.currentSlide := by
  have hp0 : (pause s).car.SLIDES_COUNT = 0 := by
    rw [(pause_car s).2.2.2.1]
    exact h0
  have hg := gotoNth_err_of_empty (pause s).car hp0 ((pause s).car.currentSlide + 1)
  refine ⟨?_, ?_, ?_, ?_⟩
  · show ((gotoNth (pause s).car ((pause s).car.currentSlide + 1)).2).isSome = true
    rw [hg]
    rfl
  · show (gotoNth (pause s).car ((pause s).car.currentSlide + 1)).1.isPlaying = false
    rw [hg]
    exact (pause_car s).1
  · show (gotoNth (pause s).car ((pause s).car.currentSlide + 1)).1.timerId = none
    rw [hg]
    exact (pause_car s).2.1
  · show (gotoNth (pause s).car ((pause s).car.currentSlide + 1)).1.currentSlide = s.car.currentSlide
    rw [hg]
    exact (pause_car s).2.2.1

/-- C8 (witness): the amended non-atomicity statement on the concrete
playing empty-slide-set example. -/
theorem next_failure_after_pause_witness :
    ((next sEmpty).2).isSome = true
    ∧ (next sEmpty).1.car.isPlaying = false
    ∧ (next sEmpty).1.car.timerId = none
    ∧ (next sEmpty).1.car.currentSlide = sEmpty.car.currentSlide :=
  next_failure_after_pause sEmpty rfl rfl

/-- C9 (counterexample): between construction and `init`, the claimed
equivalence fails: a carousel constructed with the default settings has
`isPlaying = true` while `#timerId` is still null and no timer is
scheduled. -/
theorem playing_without_timer_counterexample :
    (construct (defaultOptions 3) { active := [], fresh := 1 }).car.isPlaying = true
    ∧ (construct (defaultOptions 3) { active := [], fresh := 1 }).car.timerId = none
    ∧ ¬ PlayInv (construct (defaultOptions 3) { active := [], fresh := 1 }) := by
  refine ⟨rfl, rfl, fun h => ?_⟩
  simp [PlayInv, construct, defaultOptions] at h

/-- C9 (amended): from `init()` onwards the equivalence holds at every
observable point: for every configuration, starting environment, and event
sequence, `isPlaying` is true iff a timer handle is stored; only the window
between construction and `init` can violate it. -/
theorem playing_iff_timer_after_init (opts : Options) (env : TimerEnv) (ops : List Op) :
    PlayInv (runOps (init (construct opts env)) ops) :=
  playInv_runOps ops _ (playInv_init_construct opts env)

/-- C10: a completed press-release gesture whose horizontal displacement is
strictly below the swipe threshold (in particular a stationary click) leaves
the entire carousel state — current index, playing flag, timer handle, and
host timer environment — unchanged, and raises nothing. -/
theorem small_gesture_frame (s : Sys) (sx ex : Int)
    (h : |sx - ex| < swipeThreshold) :
    handleSwipe s sx ex = (s, none) := by
  have hc : classify sx ex swipeThreshold = SwipeDir.noSwipe := by
    unfold classify
    simp [h]
  unfold handleSwipe
  rw [hc]

/-- C10 (witness): a stationary click (press and release at the same
coordinate) on the playing three-slide example changes nothing. -/
theorem small_gesture_frame_witness :
    |(7 : Int) - 7| < swipeThreshold
    ∧ handleSwipe sPlaying 7 7 = (sPlaying, none) :=
  ⟨by decide, small_gesture_frame sPlaying 7 7 (by decide)⟩

end CarouselModel
